import Mathlib

/-!
Verification development for the answer-resolution service
(`app/utils/question_detector.py`, `app/utils/answer_processor.py`,
`app/utils/ocs_validator.py`, `app/utils/cache_manager.py`,
`app/routers/answer.py`, `app/models/db_utils.py`).

Python strings are embedded as `List Char` (with `String` wrappers keeping
the source function names).  Each `re.sub`/`re.search` call of the source is
embedded either through a small backtracking regular-expression engine
(`RE`/`reMatches`/`reSub`, Python semantics: leftmost match, greedy `*`
preferring longer, lazy `*?` preferring shorter, non-overlapping
substitution) or, for anchored or replacement-carrying patterns, through a
dedicated scanner whose behaviour is noted next to the pattern it embeds.
-/

/-! ### Character classes used by the Python regexes -/

/-- Python whitespace (`\s`, `str.strip`): ASCII whitespace plus the
non-breaking and ideographic spaces; this covers every character range
appearing in this development. -/
def isPySpace (c : Char) : Bool :=
  c = ' ' || c = '\t' || c = '\n' || c = '\r' ||
  c = Char.ofNat 11 || c = Char.ofNat 12 ||
  c = Char.ofNat 0xA0 || c = Char.ofNat 0x3000

/-- `[A-Z]` -/
def isUpperAZ (c : Char) : Bool := 'A' ≤ c && c ≤ 'Z'

/-- `[A-Za-z_]` -/
def isAsciiAlphaU (c : Char) : Bool :=
  ('A' ≤ c && c ≤ 'Z') || ('a' ≤ c && c ≤ 'z') || c = '_'

/-- `[A-Za-z0-9_]` -/
def isAsciiAlnumU (c : Char) : Bool :=
  isAsciiAlphaU c || ('0' ≤ c && c ≤ '9')

/-- CJK unified ideographs, the Python regex class `[一-鿿]`. -/
def isCJK (c : Char) : Bool :=
  Char.ofNat 0x4E00 ≤ c && c ≤ Char.ofNat 0x9FFF

/-- Python `\w` (word character) restricted to the character ranges
occurring in this development: ASCII alphanumerics, underscore and CJK
ideographs. -/
def isWordChar (c : Char) : Bool :=
  isAsciiAlnumU c || isCJK c

/-! ### Python string primitives -/

/-- Python `str.strip()`. -/
def pyStrip (l : List Char) : List Char :=
  ((l.dropWhile isPySpace).reverse.dropWhile isPySpace).reverse

theorem dropWhile_length_le (p : Char → Bool) (l : List Char) :
    (l.dropWhile p).length ≤ l.length := by
  induction l with
  | nil => simp
  | cons a t ih => by_cases h : p a <;> simp [List.dropWhile, h] <;> omega

/-- Does `pat` occur as a prefix of `l`? -/
def hasPrefixL : List Char → List Char → Bool
  | [], _ => true
  | _ :: _, [] => false
  | p :: ps, c :: cs => p = c && hasPrefixL ps cs

/-- Does `pat` occur as a contiguous sublist of `l`?  (Python `pat in s`.) -/
def containsL (pat : List Char) : List Char → Bool
  | [] => hasPrefixL pat []
  | c :: cs => hasPrefixL pat (c :: cs) || containsL pat cs

/-- Does some character of `l` satisfy `p`?  (Python `re.search` of a
single character class.) -/
def containsCharL (p : Char → Bool) (l : List Char) : Bool := l.any p

/-- `re.search` of a three-character-class pattern such as
`[（\(][\s判断\s][）\)]` (each bracket is a class matching one character). -/
def search3 (p1 p2 p3 : Char → Bool) : List Char → Bool
  | a :: b :: c :: rest => (p1 a && p2 b && p3 c) || search3 p1 p2 p3 (b :: c :: rest)
  | _ => false

/-- `re.search` of an `open \s* close` pattern (`（\s*\）` / `\(\s*\)`). -/
def searchParenWs (opn cls : Char) : List Char → Bool
  | [] => false
  | c :: rest =>
    (c = opn && ((rest.dropWhile isPySpace).head?.elim false (· = cls))) ||
    searchParenWs opn cls rest

/-! ### `detect_question_type` (`app/utils/question_detector.py`, lines 8-80) -/

/-- Character class `[\s多选\s]` of the bracketed multi-select marker. -/
def clsMulti (c : Char) : Bool := isPySpace c || c = '多' || c = '选'

/-- Character class `[\s判断\s]` of the bracketed judgment marker. -/
def clsJudge (c : Char) : Bool := isPySpace c || c = '判' || c = '断'

/-- Character class `[\s单选\s]` of the bracketed single-select marker. -/
def clsSingle (c : Char) : Bool := isPySpace c || c = '单' || c = '选'

/-- Character class `[（\(]`. -/
def clsOpenParen (c : Char) : Bool := c = '（' || c = '('

/-- Character class `[）\)]`. -/
def clsCloseParen (c : Char) : Bool := c = '）' || c = ')'

/-- `re.search(r'[（\(][\s多选\s][）\)]', q) or re.search(r'[多选]', q)` -/
def searchMultiMarker (q : List Char) : Bool :=
  search3 clsOpenParen clsMulti clsCloseParen q ||
  containsCharL (fun c => c = '多' || c = '选') q

/-- `re.search(r'[（\(][\s判断\s][）\)]', q) or re.search(r'[判断]', q)` -/
def searchJudgeMarker (q : List Char) : Bool :=
  search3 clsOpenParen clsJudge clsCloseParen q ||
  containsCharL (fun c => c = '判' || c = '断') q

/-- `re.search(r'[（\(][\s单选\s][）\)]', q) or re.search(r'[单选]', q)` -/
def searchSingleMarker (q : List Char) : Bool :=
  search3 clsOpenParen clsSingle clsCloseParen q ||
  containsCharL (fun c => c = '单' || c = '选') q

/-- `re.search(r'[对错]|正确|错误|是否|对吗', q)`: the keyword fallback of the
judgment branch taken when the question has no options. -/
def searchJudgeKeywords (q : List Char) : Bool :=
  containsCharL (fun c => c = '对' || c = '错') q ||
  containsL ['正', '确'] q || containsL ['错', '误'] q ||
  containsL ['是', '否'] q || containsL ['对', '吗'] q

/-- `detect_question_type(question, options)`: infers
single/multiple/judgment/completion from text patterns, translated
branch-for-branch from the source. -/
def detect_question_type (question options : String) : String :=
  let q := pyStrip question.data
  -- 1. options present (and non-blank): choice-question branch
  if (pyStrip options.data) ≠ [] then
    if searchMultiMarker q then "multiple"
    else if searchJudgeMarker q then "judgment"
    else if searchSingleMarker q then "single"
    else "single"
  else
  -- 2. content-based detection
  if containsL ['_', '_', '_'] q || searchParenWs '（' '）' q || searchParenWs '(' ')' q then
    "completion"
  else if search3 clsOpenParen clsJudge clsCloseParen q || searchJudgeKeywords q then
    "judgment"
  else if searchMultiMarker q then "multiple"
  else if searchSingleMarker q then "single"
  -- 3. leading bracketed tag
  else if hasPrefixL "【单选题】".data q || hasPrefixL "(单选题)".data q then "single"
  else if hasPrefixL "【多选题】".data q || hasPrefixL "(多选题)".data q then "multiple"
  else if hasPrefixL "【判断题】".data q || hasPrefixL "(判断题)".data q then "judgment"
  else if hasPrefixL "【填空题】".data q || hasPrefixL "(填空题)".data q then "completion"
  -- 4. default
  else if containsL ['_', '_'] q || searchParenWs '(' ')' q || searchParenWs '（' '）' q then
    "completion"
  else "completion"

/-! ### A small backtracking regex engine (Python `re` semantics)

Every starred subpattern of the source's substitution regexes is a star over
a single-character class, so the engine needs only `manyG` (greedy `p*`),
`manyL` (lazy `p*?`), sequencing, alternation, single-character classes and
the word boundary `\b`.  Matches are produced in Python's backtracking
preference order, so the head of the match list is the match Python takes.
The previous character is threaded through for `\b`. -/

inductive RE where
  | eps
  | ch (p : Char → Bool)
  | seq (a b : RE)
  | alt (a b : RE)
  | manyG (p : Char → Bool)
  | manyL (p : Char → Bool)
  | wb

/-- Greedy `p*`: all ways to consume a prefix of `p`-characters, longest
first; each result is (last consumed char, remaining input). -/
def manyMatchesG (p : Char → Bool) : Option Char → List Char → List (Option Char × List Char)
  | prev, [] => [(prev, [])]
  | prev, c :: rest =>
    if p c then manyMatchesG p (some c) rest ++ [(prev, c :: rest)]
    else [(prev, c :: rest)]

/-- Lazy `p*?`: shortest first. -/
def manyMatchesL (p : Char → Bool) : Option Char → List Char → List (Option Char × List Char)
  | prev, [] => [(prev, [])]
  | prev, c :: rest =>
    (prev, c :: rest) :: (if p c then manyMatchesL p (some c) rest else [])

/-- All matches of `re` at the start of the input, in Python's backtracking
preference order; `prev` is the character just before the current position
(for `\b`). -/
def reMatches : RE → Option Char → List Char → List (Option Char × List Char)
  | .eps, prev, s => [(prev, s)]
  | .ch _, _, [] => []
  | .ch p, _, c :: rest => if p c then [(some c, rest)] else []
  | .seq a b, prev, s =>
    ((reMatches a prev s).map fun pr => reMatches b pr.1 pr.2).flatten
  | .alt a b, prev, s => reMatches a prev s ++ reMatches b prev s
  | .manyG p, prev, s => manyMatchesG p prev s
  | .manyL p, prev, s => manyMatchesL p prev s
  | .wb, prev, s =>
    if (prev.elim false isWordChar) != (s.head?.elim false isWordChar)
    then [(prev, s)] else []

/-- `re.sub(pattern, '', s)`: scan left to right, delete each leftmost
non-overlapping match, resume after the deleted match.  The fuel argument
only makes the recursion structural (each step consumes at least one input
character, and `reSub` supplies `length + 1`), keeping the definition
kernel-reducible. -/
def reSubGo (re : RE) : Nat → Option Char → List Char → List Char
  | 0, _, l => l
  | _ + 1, _, [] => []
  | fuel + 1, prev, c :: rest =>
    match (reMatches re prev (c :: rest)).head? with
    | some (p2, s2) =>
      if s2.length < (c :: rest).length then reSubGo re fuel p2 s2
      else c :: reSubGo re fuel (some c) rest
    | none => c :: reSubGo re fuel (some c) rest

/-- `re.sub(pattern, '', s)` from the start of the string. -/
def reSub (re : RE) (l : List Char) : List Char := reSubGo re (l.length + 1) none l

/-- Case-sensitive literal. -/
def reLit (l : List Char) : RE := l.foldr (fun c r => .seq (.ch (· = c)) r) .eps

/-- Case-insensitive literal (`re.IGNORECASE`). -/
def reLitCI (l : List Char) : RE :=
  l.foldr (fun c r => .seq (.ch (fun x => x.toLower = c.toLower)) r) .eps

def reStr (s : String) : RE := reLit s.data

def reStrCI (s : String) : RE := reLitCI s.data

/-- `.` under `re.DOTALL`. -/
def anyCh (_ : Char) : Bool := true

/-- `.` without `re.DOTALL` (anything but a newline). -/
def notNl (c : Char) : Bool := c ≠ '\n'

/-! ### The substitution patterns of `remove_html_and_js`
(`app/utils/question_detector.py`, lines 121-203), in source order. -/

/-- `<[^>]*>` -/
def reTag : RE := .seq (.ch (· = '<')) (.seq (.manyG (· ≠ '>')) (.ch (· = '>')))

/-- `<script[^>]*>.*?</script>` with DOTALL, IGNORECASE -/
def reScriptBlock : RE :=
  .seq (reStrCI "<script") (.seq (.manyG (· ≠ '>')) (.seq (.ch (· = '>'))
    (.seq (.manyL anyCh) (reStrCI "</script>"))))

/-- `<script[^>]*>` with IGNORECASE -/
def reScriptOpen : RE :=
  .seq (reStrCI "<script") (.seq (.manyG (· ≠ '>')) (.ch (· = '>')))

/-- `<style[^>]*>.*?</style>` with DOTALL, IGNORECASE -/
def reStyleBlock : RE :=
  .seq (reStrCI "<style") (.seq (.manyG (· ≠ '>')) (.seq (.ch (· = '>'))
    (.seq (.manyL anyCh) (reStrCI "</style>"))))

/-- `window\.[A-Za-z_][A-Za-z0-9_]*.*?;` -/
def reWindow : RE :=
  .seq (reStr "window.") (.seq (.ch isAsciiAlphaU) (.seq (.manyG isAsciiAlnumU)
    (.seq (.manyL notNl) (.ch (· = ';')))))

/-- `var\s+[A-Za-z_][A-Za-z0-9_]*.*?=.*?;` -/
def reVar : RE :=
  .seq (reStr "var") (.seq (.ch isPySpace) (.seq (.manyG isPySpace)
    (.seq (.ch isAsciiAlphaU) (.seq (.manyG isAsciiAlnumU)
      (.seq (.manyL notNl) (.seq (.ch (· = '=')) (.seq (.manyL notNl) (.ch (· = ';')))))))))

/-- `function\s+[A-Za-z_][A-Za-z0-9_]*.*?\{.*?\}` with DOTALL -/
def reFunction : RE :=
  .seq (reStr "function") (.seq (.ch isPySpace) (.seq (.manyG isPySpace)
    (.seq (.ch isAsciiAlphaU) (.seq (.manyG isAsciiAlnumU)
      (.seq (.manyL anyCh) (.seq (.ch (· = '{')) (.seq (.manyL anyCh) (.ch (· = '}')))))))))

/-- `LITERAL.*?;` (the `addEventListener`, … , `allowPaste` family) -/
def reLitSemi (s : String) : RE :=
  .seq (reStr s) (.seq (.manyL notNl) (.ch (· = ';')))

/-- `LITERAL.*?\);` (the `UE\.getEditor`, … , `contentChange` family) -/
def reLitParenSemi (s : String) : RE :=
  .seq (reStr s) (.seq (.manyL notNl) (.seq (.ch (· = ')')) (.ch (· = ';'))))

/-- `if\s*\(.*?\)\s*\{.*?\}` with DOTALL -/
def reIf : RE :=
  .seq (reStr "if") (.seq (.manyG isPySpace) (.seq (.ch (· = '('))
    (.seq (.manyL anyCh) (.seq (.ch (· = ')')) (.seq (.manyG isPySpace)
      (.seq (.ch (· = '{')) (.seq (.manyL anyCh) (.ch (· = '}')))))))))

/-- `\.[A-Za-z_][A-Za-z0-9_]*.*?\)` -/
def reDotCall : RE :=
  .seq (.ch (· = '.')) (.seq (.ch isAsciiAlphaU) (.seq (.manyG isAsciiAlnumU)
    (.seq (.manyL notNl) (.ch (· = ')')))))

/-- `[A-Za-z_][A-Za-z0-9_]*\.` -/
def reWordDot : RE :=
  .seq (.ch isAsciiAlphaU) (.seq (.manyG isAsciiAlnumU) (.ch (· = '.')))

/-- `\{.*?\}` with DOTALL -/
def reBraceLazy : RE := .seq (.ch (· = '{')) (.seq (.manyL anyCh) (.ch (· = '}')))

/-- `\(.*?\)` with DOTALL -/
def reParenLazy : RE := .seq (.ch (· = '(')) (.seq (.manyL anyCh) (.ch (· = ')')))

/-- `\{[^}]*\}` -/
def reBraceCls : RE := .seq (.ch (· = '{')) (.seq (.manyG (· ≠ '}')) (.ch (· = '}')))

/-- `\([^)]*\)` -/
def reParenCls : RE := .seq (.ch (· = '(')) (.seq (.manyG (· ≠ ')')) (.ch (· = ')')))

def isQuoteCh (c : Char) : Bool := c = '"' || c = Char.ofNat 39

/-- `["\'][^"\']*["\']` -/
def reQuoted : RE :=
  .seq (.ch isQuoteCh) (.seq (.manyG (fun c => !isQuoteCh c)) (.ch isQuoteCh))

/-- `\b(true|false|null|undefined)\b` with IGNORECASE -/
def reNoiseWord : RE :=
  .seq .wb (.seq (.alt (reStrCI "true") (.alt (reStrCI "false")
    (.alt (reStrCI "null") (reStrCI "undefined")))) .wb)

/-- `\b[A-Za-z_][A-Za-z0-9_]*\b` -/
def reWordRun : RE :=
  .seq .wb (.seq (.ch isAsciiAlphaU) (.seq (.manyG isAsciiAlnumU) .wb))

/-! ### Anchored / replacement-carrying patterns, as dedicated scanners -/

/-- `re.sub(r'点击上传.*', '', s)` (no DOTALL: `.*` stops at a newline).
On a match the literal and the rest of its line are deleted and scanning
resumes at the newline. -/
def subClickUploadGo : Nat → List Char → List Char
  | 0, l => l
  | _ + 1, [] => []
  | fuel + 1, c :: rest =>
    if hasPrefixL ['点', '击', '上', '传'] (c :: rest) then
      subClickUploadGo fuel ((rest.drop 3).dropWhile (fun x => x ≠ '\n'))
    else c :: subClickUploadGo fuel rest

def subClickUpload (l : List Char) : List Char := subClickUploadGo (l.length + 1) l

/-- `re.sub(r'x\s*$', '', s)`: in non-MULTILINE mode `$` matches at the end
of the string or just before a final newline, and the greedy `\s*` always
extends through that final newline, so the unique possible match is a
literal `x` followed by the (possibly empty) trailing whitespace run. -/
def subTrailingX (l : List Char) : List Char :=
  match l.reverse.dropWhile isPySpace with
  | 'x' :: r2 => r2.reverse
  | _ => l

/-- `re.sub(r'[\s\t]*$', '', s)`: deletes the trailing whitespace run. -/
def subTrailingWs (l : List Char) : List Char :=
  (l.reverse.dropWhile isPySpace).reverse

/-- The class `[;.,\[\]{}()]`. -/
def isPunctNoise (c : Char) : Bool :=
  c = ';' || c = '.' || c = ',' || c = '[' || c = ']' ||
  c = '{' || c = '}' || c = '(' || c = ')'

/-- `re.sub(r'[;.,\[\]{}()]', '', s)` -/
def subPunctNoise (l : List Char) : List Char := l.filter (fun c => !isPunctNoise c)

/-- `re.sub(r'\s+', ' ', s)`: collapse every whitespace run to one space. -/
def collapseWsAux : Bool → List Char → List Char
  | _, [] => []
  | inRun, c :: rest =>
    if isPySpace c then
      if inRun then collapseWsAux true rest else ' ' :: collapseWsAux true rest
    else c :: collapseWsAux false rest

def collapseWs (l : List Char) : List Char := collapseWsAux false l

/-- `re.sub(tc+, tc, s)`: collapse every run of the character `tc` to one
occurrence (used for `\n+` → `\n` and `' +'` → `' '`). -/
def collapseCharAux (tc : Char) : Bool → List Char → List Char
  | _, [] => []
  | inRun, c :: rest =>
    if c = tc then
      if inRun then collapseCharAux tc true rest else tc :: collapseCharAux tc true rest
    else c :: collapseCharAux tc false rest

def collapseChar (tc : Char) (l : List Char) : List Char := collapseCharAux tc false l

/-- Front match of `' *\n *'` (greedy): spaces, a newline, spaces; returns
the remainder after the match. -/
def spacesThenNl (l : List Char) : Option (List Char) :=
  let t := l.dropWhile (· = ' ')
  if t.head? = some '\n' then some (t.tail.dropWhile (· = ' ')) else none

theorem spacesThenNl_length {l s2 : List Char} (h : spacesThenNl l = some s2) :
    s2.length < l.length := by
  unfold spacesThenNl at h
  by_cases hh : (l.dropWhile (· = ' ')).head? = some '\n'
  · rw [if_pos hh] at h
    injection h with h2
    have h1 : s2.length ≤ (l.dropWhile (· = ' ')).tail.length := by
      rw [← h2]; exact dropWhile_length_le _ _
    have ht0 : l.dropWhile (· = ' ') ≠ [] := by
      intro he; rw [he] at hh; simp at hh
    have h3 : (l.dropWhile (· = ' ')).length ≤ l.length := dropWhile_length_le _ _
    have h4 : (l.dropWhile (· = ' ')).tail.length < (l.dropWhile (· = ' ')).length := by
      cases he : l.dropWhile (· = ' ') with
      | nil => exact absurd he ht0
      | cons a u => simp
    omega
  · rw [if_neg hh] at h
    exact Option.noConfusion h

/-- `re.sub(r' *\n *', '\n', s)` -/
def subSpNlSpGo : Nat → List Char → List Char
  | 0, l => l
  | _ + 1, [] => []
  | fuel + 1, c :: rest =>
    match spacesThenNl (c :: rest) with
    | some s2 => '\n' :: subSpNlSpGo fuel s2
    | none => c :: subSpNlSpGo fuel rest

def subSpNlSp (l : List Char) : List Char := subSpNlSpGo (l.length + 1) l

/-- The class `[，。！？；：]` of full-width punctuation. -/
def isCnPunct (c : Char) : Bool :=
  c = '，' || c = '。' || c = '！' || c = '？' || c = '；' || c = '：'

/-- `re.sub(r'\n([，。！？；：])', r'\1', s)`: drop a newline directly
before such punctuation. -/
def subNlPunct : List Char → List Char
  | [] => []
  | '\n' :: c :: rest =>
    if isCnPunct c then c :: subNlPunct rest else '\n' :: subNlPunct (c :: rest)
  | c :: rest => c :: subNlPunct rest

/-- `re.sub(r'([，。！？；：])\n', r'\1', s)`: drop a newline directly
after such punctuation. -/
def subPunctNl : List Char → List Char
  | [] => []
  | c :: '\n' :: rest =>
    if isCnPunct c then c :: subPunctNl rest else c :: subPunctNl ('\n' :: rest)
  | c :: rest => c :: subPunctNl rest

/-! ### `remove_html_and_js` and `clean_question_text`
(`app/utils/question_detector.py`, lines 83-203) -/

/-- `remove_html_and_js(text)`: the source's substitutions applied in
source order, then the minimal-length / ideographic-content guard. -/
def removeHtmlAndJsL (l : List Char) : List Char :=
  if l = [] then [] else
  let t := reSub reTag l
  let t := reSub reScriptBlock t
  let t := reSub reScriptOpen t
  let t := reSub reStyleBlock t
  let t := reSub reWindow t
  let t := reSub reVar t
  let t := reSub reFunction t
  let t := reSub (reLitSemi "addEventListener") t
  let t := reSub (reLitSemi "getElementById") t
  let t := reSub (reLitSemi "UEDITOR_CONFIG") t
  let t := reSub (reLitParenSemi "UE.getEditor") t
  let t := reSub (reLitParenSemi "editor1.") t
  let t := reSub (reLitParenSemi "loadEditorAnswerd") t
  let t := reSub (reLitParenSemi "answerContentChange") t
  let t := reSub (reLitParenSemi "editorPaste") t
  let t := reSub (reLitParenSemi "beforepaste") t
  let t := reSub (reLitParenSemi "contentChange") t
  let t := reSub (reLitSemi "initialFrameWidth") t
  let t := reSub (reLitSemi "initialFrameHeight") t
  let t := reSub (reLitSemi "toolbars") t
  let t := reSub (reLitSemi "pasteplain") t
  let t := reSub (reLitSemi "disablePasteImage") t
  let t := reSub (reLitSemi "disableDraggable") t
  let t := reSub (reLitSemi "parseInt") t
  let t := reSub (reLitSemi "allowPaste") t
  let t := reSub reIf t
  let t := reSub reDotCall t
  let t := reSub reWordDot t
  let t := reSub reBraceLazy t
  let t := reSub reParenLazy t
  let t := subClickUpload t
  let t := subTrailingX t
  let t := t.dropWhile isPySpace
  let t := subTrailingWs t
  let t := reSub reBraceCls t
  let t := reSub reParenCls t
  let t := reSub reQuoted t
  let t := reSub reNoiseWord t
  let t := reSub reWordRun t
  let t := subPunctNoise t
  let t := collapseWs t
  if t.length < 5 && !(containsCharL isCJK t) then [] else pyStrip t

def remove_html_and_js (text : String) : String := ⟨removeHtmlAndJsL text.data⟩

/-- `clean_question_text(text)`: markup removal followed by whitespace
canonicalisation, in source order. -/
def cleanQuestionTextL (l : List Char) : List Char :=
  if l = [] then [] else
  let t := removeHtmlAndJsL l
  let t := pyStrip t
  let t := collapseChar '\n' t
  let t := collapseChar ' ' t
  let t := subSpNlSp t
  let t := subNlPunct t
  let t := subPunctNl t
  t.filter (· ≠ '\t')

def clean_question_text (text : String) : String := ⟨cleanQuestionTextL text.data⟩

/-! ### `normalize_answer_for_type` (`app/utils/question_detector.py`,
lines 206-269) -/

/-- Python `options.split('\n')`. -/
def splitNl : List Char → List (List Char)
  | [] => [[]]
  | c :: rest =>
    let r := splitNl rest
    if c = '\n' then [] :: r
    else
      match r with
      | [] => [[c]]
      | l :: ls => (c :: l) :: ls

/-- `re.match(r'^([A-Z])[.\s、]\s*(.+)', line)`: a capital letter, one
separator character, optional whitespace, then the (non-empty) option
text; returns (option text, letter). -/
def parseOptionLine (line : List Char) : Option (List Char × Char) :=
  match line with
  | c0 :: c1 :: rest =>
    if isUpperAZ c0 && (c1 = '.' || isPySpace c1 || c1 = '、') then
      let g2 := rest.dropWhile isPySpace
      if g2 ≠ [] then some (g2, c0) else none
    else none
  | _ => none

/-- Python-dict insertion: overwriting an existing key keeps its position,
a new key is appended. -/
def insertOd (m : List (List Char × Char)) (k : List Char) (v : Char) :
    List (List Char × Char) :=
  if m.any (fun p => p.1 = k) then
    m.map (fun p => if p.1 = k then (k, v) else p)
  else m ++ [(k, v)]

/-- The `option_map` built from the option lines. -/
def buildOptionMap (lines : List (List Char)) : List (List Char × Char) :=
  lines.foldl (fun m line =>
    match parseOptionLine line with
    | some (text, letter) => insertOd m text letter
    | none => m) []

/-- The option-letter search loop of the single/multiple branch: the first
map entry whose option text occurs in the answer. -/
def findOptionIn (m : List (List Char × Char)) (a : List Char) : Option Char :=
  match m with
  | [] => none
  | (text, letter) :: rest =>
    if containsL text a then some letter else findOptionIn rest a

/-- `re.match(r'^[A-Z#]+$', answer)` -/
def matchesUpperHash (a : List Char) : Bool :=
  a ≠ [] && a.all (fun c => isUpperAZ c || c = '#')

/-- `re.match(r'^[A-Z]$', cleaned_answer)` -/
def matchesSingleUpper (a : List Char) : Bool :=
  match a with
  | [c] => isUpperAZ c
  | _ => false

/-- `normalize_answer_for_type(answer, question_type, options)`: canonical
answer formatting per question type, translated branch-for-branch. -/
def normalize_answer_for_type (answer question_type options : String) : String :=
  if answer = "" then "" else
  let a := pyStrip answer.data
  if question_type = "completion" then
    let cleaned := cleanQuestionTextL a
    if matchesSingleUpper cleaned && options ≠ "" then ⟨a⟩ else ⟨cleaned⟩
  else if question_type = "judgment" then
    if ["对", "正确", "√", "T", "true", "True"].contains (⟨a⟩ : String) then "对"
    else if ["错", "错误", "×", "F", "false", "False"].contains (⟨a⟩ : String) then "错"
    else ⟨a⟩
  else if question_type = "single" || question_type = "multiple" then
    if matchesUpperHash a then ⟨a⟩
    else if options ≠ "" then
      let option_lines := ((splitNl options.data).map pyStrip).filter (· ≠ [])
      let option_map := buildOptionMap option_lines
      match findOptionIn option_map a with
      | some letter =>
        if question_type = "multiple" then ⟨a⟩ else ⟨[letter]⟩
      | none => ⟨a⟩
    else ⟨a⟩
  else ⟨cleanQuestionTextL a⟩

/-! ### A model of decoded JSON values (the output of `json.loads`),
used by the response adapters and the configuration validator.
Objects are association lists with distinct keys (as produced by
`json.loads`); numbers are integers (no response or configuration in this
development carries a float). -/

inductive JValue where
  | null
  | bool (b : Bool)
  | num (n : Int)
  | str (s : String)
  | arr (elems : List JValue)
  | obj (fields : List (String × JValue))

/-- Python `v == s` for a string literal `s`: strings compare by value,
anything else is unequal. -/
def jvEqStr (v : JValue) (s : String) : Bool :=
  match v with
  | .str t => t = s
  | _ => false

/-- Dictionary lookup (`d.get(key)` / `key in d`). -/
def jlookup : List (String × JValue) → String → Option JValue
  | [], _ => none
  | (k, v) :: rest, key => if k = key then some v else jlookup rest key

/-- Python `v == n` for an integer literal `n`: numbers compare by value,
booleans coerce to 0/1, anything else is unequal. -/
def pyEqNum (v : JValue) (n : Int) : Bool :=
  match v with
  | .num m => m = n
  | .bool b => (if b then (1 : Int) else 0) = n
  | _ => false

/-! ### The `ocs_standard` response adapter
(`app/utils/answer_processor.py`, lines 495-534).

`execute_handler_safely` dispatches a predefined handler name through
`SAFE_HANDLERS` inside a `try`, returning `None` on any exception.
`ocs_standard_adapter` embeds the `"ocs_standard"` lambda of
`SAFE_HANDLERS`; `Except`'s error tracks the `AttributeError` raised by
`.get` on a non-dict `data`, which the surrounding `try` converts to
`None` (`execute_ocs_standard`). -/

def ocs_standard_adapter (res : JValue) : Except Unit (Option (List JValue)) :=
  match res with
  | .obj fields =>
    if pyEqNum ((jlookup fields "code").getD .null) 1 then
      match (jlookup fields "data").getD (.obj []) with
      | .obj dataFields =>
        .ok (some [(jlookup dataFields "title").getD (.str ""),
                   (jlookup dataFields "answers").getD (.str "")])
      | _ => .error ()
    else .ok none
  | _ => .ok none

/-- `execute_handler_safely("ocs_standard", res)`: the predefined-handler
branch plus the surrounding `try`/`except` (exception ⇒ `None`). -/
def execute_ocs_standard (res : JValue) : Option (List JValue) :=
  match ocs_standard_adapter res with
  | .ok r => r
  | .error _ => none

/-! ### `validate_ocs_config` / `validate_single_config`
(`app/utils/ocs_validator.py`, lines 8-105).

`json.loads` is modelled as a parameter of type `Except String JValue`
(the decoded value, or the decode-error message). -/

/-- The result dictionary of the validator (only the keys the source ever
sets). -/
structure VRes where
  valid : Bool
  error : Option String := none
  count : Option Nat := none
  configs : Option (List JValue) := none
  config : Option JValue := none

/-- Python `key in container` for the container kinds a decoded JSON value
can be: key test for dicts, substring test for strings, membership for
lists; a `TypeError` for anything else. -/
def pyContains (container : JValue) (key : String) : Except String Bool :=
  match container with
  | .obj fields => .ok (jlookup fields key).isSome
  | .str s => .ok (containsL key.data s.data)
  | .arr elems => .ok (elems.any (fun e => jvEqStr e key))
  | _ => .error "argument of type is not iterable"

/-- Python `container[key]` for a string key: dict lookup (`KeyError` when
missing), `TypeError` otherwise. -/
def pySubscript (container : JValue) (key : String) : Except String JValue :=
  match container with
  | .obj fields =>
    match jlookup fields key with
    | some v => .ok v
    | none => .error ("KeyError: " ++ key)
  | _ => .error "TypeError: indices must be integers"

def isJStr : JValue → Bool
  | .str _ => true
  | _ => false

/-- The `valid=False` dictionary for a missing required field. -/
def missingFieldErr (index : Nat) (field : String) : VRes :=
  { valid := false, error := some ("配置[" ++ toString index ++ "]缺少必需字段: " ++ field) }

/-- The `valid=False` dictionary for a non-string required field. -/
def notStringErr (index : Nat) (field : String) : VRes :=
  { valid := false, error := some ("配置[" ++ toString index ++ "]的" ++ field ++ "必须是字符串") }

/-- The optional-enum check of `type` (`fetch`/`GM_xmlhttpRequest`), the
last check of `validate_single_config`; on success the source returns
`{"valid": True, "config": config}`. -/
def validate_enum_type (config : JValue) (index : Nat) : Except String VRes :=
  match pyContains config "type" with
  | .error e => .error e
  | .ok hasType =>
    if hasType then
      match pySubscript config "type" with
      | .error e => .error e
      | .ok ty =>
        if !(jvEqStr ty "fetch" || jvEqStr ty "GM_xmlhttpRequest") then
          .ok { valid := false,
                error := some ("配置[" ++ toString index ++
                  "]的type必须是'fetch'或'GM_xmlhttpRequest'") }
        else .ok { valid := true, config := some config }
    else .ok { valid := true, config := some config }

/-- The optional-enum check of `contentType` (`json`/`text`). -/
def validate_enum_contentType (config : JValue) (index : Nat) : Except String VRes :=
  match pyContains config "contentType" with
  | .error e => .error e
  | .ok hasCT =>
    if hasCT then
      match pySubscript config "contentType" with
      | .error e => .error e
      | .ok ct =>
        if !(jvEqStr ct "json" || jvEqStr ct "text") then
          .ok { valid := false,
                error := some ("配置[" ++ toString index ++
                  "]的contentType必须是'json'或'text'") }
        else validate_enum_type config index
    else validate_enum_type config index

/-- The optional-enum check of `method` (`get`/`post`). -/
def validate_enum_method (config : JValue) (index : Nat) : Except String VRes :=
  match pyContains config "method" with
  | .error e => .error e
  | .ok hasMethod =>
    if hasMethod then
      match pySubscript config "method" with
      | .error e => .error e
      | .ok m =>
        if !(jvEqStr m "get" || jvEqStr m "post") then
          .ok { valid := false,
                error := some ("配置[" ++ toString index ++
                  "]的method必须是'get'或'post'") }
        else validate_enum_contentType config index
    else validate_enum_contentType config index

/-- `validate_single_config(config, index)`: required fields `url`, `name`,
`handler` present (first missing reported) and string-valued, then the
optional enum fields `method`, `contentType`, `type`; the source's chain
of early returns is written as nested matches; exceptions propagate to
the caller's `try`. -/
def validate_single_config (config : JValue) (index : Nat) : Except String VRes :=
  match pyContains config "url" with
  | .error e => .error e
  | .ok hasUrl =>
  if !hasUrl then .ok (missingFieldErr index "url") else
  match pyContains config "name" with
  | .error e => .error e
  | .ok hasName =>
  if !hasName then .ok (missingFieldErr index "name") else
  match pyContains config "handler" with
  | .error e => .error e
  | .ok hasHandler =>
  if !hasHandler then .ok (missingFieldErr index "handler") else
  match pySubscript config "url" with
  | .error e => .error e
  | .ok url =>
  if !isJStr url then .ok (notStringErr index "url") else
  match pySubscript config "name" with
  | .error e => .error e
  | .ok nameV =>
  if !isJStr nameV then .ok (notStringErr index "name") else
  match pySubscript config "handler" with
  | .error e => .error e
  | .ok handlerV =>
  if !isJStr handlerV then .ok (notStringErr index "handler") else
  validate_enum_method config index

/-- The element loop of `validate_ocs_config`: first invalid element's
result, if any. -/
def validateAll : List JValue → Nat → Except String (Option VRes)
  | [], _ => .ok none
  | c :: rest, i =>
    match validate_single_config c i with
    | .error e => .error e
    | .ok r => if r.valid then validateAll rest (i + 1) else .ok (some r)

/-- `validate_ocs_config(config)`: decode, wrap a single object into a
one-element list, validate element-wise; decode errors and raised
exceptions become `valid=False` dictionaries. -/
def validate_ocs_config (parsed : Except String JValue) : VRes :=
  match parsed with
  | .error e => { valid := false, error := some ("JSON解析错误: " ++ e) }
  | .ok v =>
    match v with
    | .arr configs =>
      (match validateAll configs 0 with
       | .error e => { valid := false, error := some ("验证出错: " ++ e) }
       | .ok (some bad) => bad
       | .ok none =>
         { valid := true, count := some configs.length, configs := some configs })
    | .obj fields =>
      (match validateAll [.obj fields] 0 with
       | .error e => { valid := false, error := some ("验证出错: " ++ e) }
       | .ok (some bad) => bad
       | .ok none =>
         { valid := true, count := some 1, configs := some [.obj fields] })
    | _ => { valid := false, error := some "配置必须是JSON对象或数组" }

/-! ### The resolution orchestrator
(`app/utils/answer_processor.py`, lines 36-138) and the memory cache
(`app/utils/cache_manager.py`, lines 13-136, Redis disabled as in the
default configuration, so `CacheManager.get/set` delegate to
`MemoryCache`).

The per-source query coroutines perform I/O; their observable outcome for
the one question of a call is a `SourceOutcome` supplied by an oracle
(timeout, raised exception, or a returned result dictionary / `None`).
Time is an explicit `Nat` parameter (`time.time()`); the sha256-truncation
of the cache key is modelled as the identity on the hashed content (a
collision-free abstraction). -/

/-- The result dictionary produced by the `query_*` functions (the keys the
orchestrator reads and writes). -/
structure AnswerDict where
  question : String
  answer : String
  source : String
  confidence : ℚ
deriving DecidableEq, Repr

/-- The observable outcome of awaiting one source for one question. -/
inductive SourceOutcome where
  | timeout
  | error
  | ok (r : Option AnswerDict)
deriving DecidableEq, Repr

/-- `MemoryCache`: insertion-ordered entries `(key, value, expire_time)`,
oldest first, with `max_size` (`settings.MEMORY_CACHE_SIZE`). -/
structure CacheState where
  entries : List (String × AnswerDict × Option Nat)
  maxSize : Nat
deriving DecidableEq, Repr

/-- `expire_time is None or expire_time > time.time()` -/
def expLive : Option Nat → Nat → Bool
  | none, _ => true
  | some t, now => decide (now < t)

def lookupEntry : List (String × AnswerDict × Option Nat) → String →
    Option (AnswerDict × Option Nat)
  | [], _ => none
  | (k, v, e) :: rest, key => if k = key then some (v, e) else lookupEntry rest key

def removeEntry : List (String × AnswerDict × Option Nat) → String →
    List (String × AnswerDict × Option Nat)
  | [], _ => []
  | (k, v, e) :: rest, key =>
    if k = key then rest else (k, v, e) :: removeEntry rest key

/-- `MemoryCache.get`: a live hit is moved to the back (LRU refresh), an
expired entry is deleted; returns the value (or `None`) and the new cache
state. -/
def memory_cache_get (c : CacheState) (now : Nat) (key : String) :
    Option AnswerDict × CacheState :=
  match lookupEntry c.entries key with
  | none => (none, c)
  | some (v, e) =>
    if expLive e now then
      (some v, { c with entries := removeEntry c.entries key ++ [(key, v, e)] })
    else
      (none, { c with entries := removeEntry c.entries key })

/-- Python-dict assignment: an existing key keeps its position, a new key
is appended. -/
def setEntry (l : List (String × AnswerDict × Option Nat)) (key : String)
    (v : AnswerDict) (e : Option Nat) : List (String × AnswerDict × Option Nat) :=
  if (lookupEntry l key).isSome then
    l.map (fun p => if p.1 = key then (key, v, e) else p)
  else l ++ [(key, v, e)]

/-- `MemoryCache.set`: store `(value, now + ttl)`, then pop oldest entries
while the size exceeds `max_size`. -/
def memory_cache_set (c : CacheState) (now : Nat) (key : String)
    (v : AnswerDict) (ttl : Option Nat) : CacheState :=
  let es := setEntry c.entries key v (ttl.map (fun t => now + t))
  { c with entries := es.drop (es.length - c.maxSize) }

/-- Modelled from the spec: `normalize_options` is imported from
`app.models.db_utils`, which does not define it (the definition is missing
from the repository).  Per spec §4.7 step 1 ("Normalize question/options")
and §4.1, options are normalized by the Text Normalizer.  No theorem below
depends on what this function computes, only on it being a function of the
options text. -/
def normalize_options (options : String) : String := clean_question_text options

structure OCSQuestionContext where
  title : String
  type : String
  options : String
deriving DecidableEq, Repr

/-- The `updated_context` built by the orchestrator: cleaned title,
caller-supplied type when non-empty (otherwise the detected type),
normalized options. -/
def updatedContext (ctx : OCSQuestionContext) : OCSQuestionContext :=
  let clean_title := clean_question_text ctx.title
  let clean_options := normalize_options ctx.options
  let detected_type := detect_question_type clean_title clean_options
  { title := clean_title
    type := if ctx.type ≠ "" then ctx.type else detected_type
    options := clean_options }

/-- The cache key `"answer_" + sha256(title|type|options)[:16]`, with the
hash modelled as the identity on the hashed content. -/
def question_hash (ctx : OCSQuestionContext) : String :=
  "answer_" ++ ctx.title ++ "|" ++ ctx.type ++ "|" ++ ctx.options

/-- The priority-ordered source list (lines 75-88): database when enabled,
the remote question bank when enabled and configured
(`settings.QUESTION_BANK_CONFIG` non-empty), AI when enabled. -/
def queryFunctions (use_database use_question_bank : Bool)
    (question_bank_config : String) (use_ai : Bool) : List String :=
  (if use_database then ["database"] else []) ++
  (if use_question_bank && question_bank_config ≠ "" then ["question_bank"] else []) ++
  (if use_ai then ["ai"] else [])

/-- Did the source yield a (truthy) result dictionary? -/
def sourceSucceeds : SourceOutcome → Bool
  | .ok (some _) => true
  | _ => false

/-- The `for source_name, query_func in query_functions` loop (lines
91-134): each iteration is guarded by `try`/`except`, so a timeout, an
exception or an empty result advances to the next source; the first result
dictionary has its answer normalized, is saved to the database when it came
from AI with a non-empty answer, and is returned.  Returns (result, the
sources invoked, the AI answers saved to the database). -/
def runLayers (oracle : String → SourceOutcome) (ctx : OCSQuestionContext) :
    List String → Option AnswerDict × List String × List (String × String)
  | [] => (none, [], [])
  | name :: rest =>
    match oracle name with
    | .ok (some r) =>
      let r2 := { r with answer := normalize_answer_for_type r.answer ctx.type ctx.options }
      (some r2, [name],
        if name = "ai" && r2.answer ≠ "" then [(ctx.title, r2.answer)] else [])
    | _ =>
      let out := runLayers oracle ctx rest
      (out.1, name :: out.2.1, out.2.2)

/-- Everything a call of the orchestrator produces: its return value, the
sources it invoked in order, the cache it leaves behind and the AI answers
it persisted. -/
structure ProcOutput where
  result : Option AnswerDict
  invoked : List String
  cache : CacheState
  aiSaved : List (String × String)
deriving DecidableEq, Repr

/-- `process_question_with_multi_layer(question_context, use_ai,
use_question_bank, use_database)`: clean and re-type the context, check the
cache, then run the source layers, caching a successful result with
`ttl = settings.CACHE_TTL`. -/
def process_question_with_multi_layer (oracle : String → SourceOutcome)
    (ctx : OCSQuestionContext) (use_ai use_question_bank use_database : Bool)
    (question_bank_config : String) (cache_ttl : Nat) (now : Nat)
    (cache : CacheState) : ProcOutput :=
  let updated := updatedContext ctx
  let key := question_hash updated
  match memory_cache_get cache now key with
  | (some cached, c1) => ⟨some cached, [], c1, []⟩
  | (none, c1) =>
    let layers := queryFunctions use_database use_question_bank question_bank_config use_ai
    match runLayers oracle updated layers with
    | (some r, inv, sv) =>
      ⟨some r, inv, memory_cache_set c1 now key r (some cache_ttl), sv⟩
    | (none, inv, sv) => ⟨none, inv, c1, sv⟩

/-! ### `query_ai` response handling
(`app/utils/answer_processor.py`, lines 386-492).  The request build is
plumbing; the observable input is the HTTP outcome: a raised exception, or
a response with a status and a decoded JSON body. -/

inductive AIResponse where
  | response (status : Nat) (body : JValue)
  | exn

/-- `result['choices'][0]['message']['content'].strip()`; any missing key,
wrong shape or non-string content raises, which the surrounding `except`
turns into `None`. -/
def extract_ai_answer (body : JValue) : Option String :=
  match body with
  | .obj f =>
    (match jlookup f "choices" with
     | some (.arr (c0 :: _)) =>
       (match c0 with
        | .obj cf =>
          (match jlookup cf "message" with
           | some (.obj mf) =>
             (match jlookup mf "content" with
              | some (.str s) => some ⟨pyStrip s.data⟩
              | _ => none)
           | _ => none)
        | _ => none)
     | _ => none)
  | _ => none

/-- `query_ai(question_context)` as a function of the HTTP outcome: a
status-200 response with a well-shaped body yields the trimmed completion
tagged `source="ai"`, `confidence=0.8`; any non-200 status, malformed body
or exception yields `None`. -/
def query_ai (ctx : OCSQuestionContext) (resp : AIResponse) : Option AnswerDict :=
  match resp with
  | .exn => none
  | .response status body =>
    if status = 200 then
      match extract_ai_answer body with
      | some ans => some ⟨ctx.title, ans, "ai", mkRat 4 5⟩
      | none => none
    else none

/-! ### The import graph of the resolution pipeline
(`app/utils/answer_processor.py` line 17, `app/routers/answer.py` line 10).

A module's attribute set is the list of names bound at its top level
(imports, classes, functions, assignments); `from M import a, b` succeeds
exactly when every requested name is an attribute of `M`. -/

/-- Top-level names of `app/models/db_utils.py`. -/
def db_utils_module_names : List String :=
  ["Session", "Optional", "QuestionAnswer", "re",
   "create_question_answer", "get_question_answer_by_exact_match",
   "search_question_answer_fuzzy", "get_question_answer_by_fuzzy_search"]

/-- Names `app/utils/answer_processor.py` line 17 requests from
`app.models.db_utils`. -/
def answer_processor_required_from_db_utils : List String :=
  ["get_question_answer_by_full_match", "create_question_answer", "normalize_options"]

/-- Top-level names of `app/utils/answer_processor.py` (as they would be
bound if its own imports succeeded). -/
def answer_processor_module_names : List String :=
  ["asyncio", "aiohttp", "json", "logging", "hashlib",
   "Optional", "Dict", "Any", "List", "Session",
   "OCSQuestionContext", "AnswerResult", "settings", "cache_manager", "logger",
   "SessionLocal", "create_tables",
   "get_question_answer_by_full_match", "create_question_answer", "normalize_options",
   "detect_question_type", "clean_question_text", "normalize_answer_for_type",
   "contextmanager", "get_db_session",
   "process_question_with_multi_layer", "query_database", "query_question_bank",
   "query_ocs_answerer", "handle_ocs_response", "parse_ocs_config", "query_ai",
   "execute_handler_safely", "parse_answerer_response"]

/-- Names `app/routers/answer.py` line 10 requests from
`app.utils.answer_processor`. -/
def answer_router_required_from_answer_processor : List String :=
  ["process_question_with_multi_layer", "load_manual_question_bank",
   "MANUAL_QUESTION_BANK_PATH"]

/-- `from M import a, b, ...` succeeds iff every name is an attribute. -/
def importsResolve (provided required : List String) : Bool :=
  required.all (fun n => provided.contains n)

/-- Importing `app.utils.answer_processor` executes its line-17 import
from `app.models.db_utils`. -/
def answer_processor_loads : Bool :=
  importsResolve db_utils_module_names answer_processor_required_from_db_utils

/-- Importing `app.routers.answer` first imports
`app.utils.answer_processor` (which must itself load) and then requires
the three names of line 10 to be among its attributes. -/
def answer_router_loads : Bool :=
  answer_processor_loads &&
  importsResolve answer_processor_module_names
    answer_router_required_from_answer_processor

/-! ### Lemmas about the orchestrator -/

theorem runLayers_invoked_prefix (oracle : String → SourceOutcome)
    (ctx : OCSQuestionContext) (names : List String) :
    ∃ t, names = (runLayers oracle ctx names).2.1 ++ t := by
  induction names with
  | nil => exact ⟨[], rfl⟩
  | cons n rest ih =>
    obtain ⟨t, ht⟩ := ih
    cases h : oracle n with
    | ok r =>
      cases r with
      | some d => exact ⟨rest, by simp [runLayers, h]⟩
      | none => exact ⟨t, by simp [runLayers, h]; exact ht⟩
    | timeout => exact ⟨t, by simp [runLayers, h]; exact ht⟩
    | error => exact ⟨t, by simp [runLayers, h]; exact ht⟩

theorem runLayers_all_fail (oracle : String → SourceOutcome)
    (ctx : OCSQuestionContext) (names : List String)
    (h : ∀ m ∈ names, sourceSucceeds (oracle m) = false) :
    runLayers oracle ctx names = (none, names, []) := by
  induction names with
  | nil => rfl
  | cons n rest ih =>
    have hn := h n (by simp)
    have hrest := ih (fun m hm => h m (by simp [hm]))
    cases ho : oracle n with
    | ok r =>
      cases r with
      | some d => rw [ho] at hn; simp [sourceSucceeds] at hn
      | none => simp [runLayers, ho, hrest]
    | timeout => simp [runLayers, ho, hrest]
    | error => simp [runLayers, ho, hrest]

theorem runLayers_prefix_fail (oracle : String → SourceOutcome)
    (ctx : OCSQuestionContext) (pre rest : List String)
    (h : ∀ m ∈ pre, sourceSucceeds (oracle m) = false) :
    runLayers oracle ctx (pre ++ rest) =
      ((runLayers oracle ctx rest).1,
       pre ++ (runLayers oracle ctx rest).2.1,
       (runLayers oracle ctx rest).2.2) := by
  induction pre with
  | nil => simp
  | cons n pre' ih =>
    have hn := h n (by simp)
    have hih := ih (fun m hm => h m (by simp [hm]))
    cases ho : oracle n with
    | ok r =>
      cases r with
      | some d => rw [ho] at hn; simp [sourceSucceeds] at hn
      | none => simp [runLayers, ho, hih]
    | timeout => simp [runLayers, ho, hih]
    | error => simp [runLayers, ho, hih]

theorem runLayers_head_success (oracle : String → SourceOutcome)
    (ctx : OCSQuestionContext) (n : String) (rest : List String)
    (h : sourceSucceeds (oracle n) = true) :
    (runLayers oracle ctx (n :: rest)).2.1 = [n] ∧
    (runLayers oracle ctx (n :: rest)).1.isSome = true := by
  cases ho : oracle n with
  | ok r =>
    cases r with
    | some d => simp [runLayers, ho]
    | none => rw [ho] at h; simp [sourceSucceeds] at h
  | timeout => rw [ho] at h; simp [sourceSucceeds] at h
  | error => rw [ho] at h; simp [sourceSucceeds] at h

/-- Replacing one source's outcome by another changes nothing in the layer
loop as long as every source either keeps its outcome or fails (in any
way) under both oracles. -/
theorem runLayers_agree (oracle oracle' : String → SourceOutcome)
    (ctx : OCSQuestionContext) (names : List String)
    (h : ∀ m ∈ names, oracle m = oracle' m ∨
      (sourceSucceeds (oracle m) = false ∧ sourceSucceeds (oracle' m) = false)) :
    runLayers oracle ctx names = runLayers oracle' ctx names := by
  induction names with
  | nil => rfl
  | cons n rest ih =>
    have hrest := ih (fun m hm => h m (by simp [hm]))
    rcases h n (by simp) with he | ⟨hf, hf'⟩
    · cases ho : oracle n with
      | ok r =>
        cases r with
        | some d => simp [runLayers, ho, ← he]
        | none => simp [runLayers, ho, ← he, hrest]
      | timeout => simp [runLayers, ho, ← he, hrest]
      | error => simp [runLayers, ho, ← he, hrest]
    · have h1 : ∀ d, oracle n ≠ .ok (some d) := by
        intro d hd; rw [hd] at hf; simp [sourceSucceeds] at hf
      have h2 : ∀ d, oracle' n ≠ .ok (some d) := by
        intro d hd; rw [hd] at hf'; simp [sourceSucceeds] at hf'
      cases ho : oracle n with
      | ok r =>
        cases r with
        | some d => exact absurd ho (h1 d)
        | none =>
          cases ho' : oracle' n with
          | ok r' =>
            cases r' with
            | some d => exact absurd ho' (h2 d)
            | none => simp [runLayers, ho, ho', hrest]
          | timeout => simp [runLayers, ho, ho', hrest]
          | error => simp [runLayers, ho, ho', hrest]
      | timeout =>
        cases ho' : oracle' n with
        | ok r' =>
          cases r' with
          | some d => exact absurd ho' (h2 d)
          | none => simp [runLayers, ho, ho', hrest]
        | timeout => simp [runLayers, ho, ho', hrest]
        | error => simp [runLayers, ho, ho', hrest]
      | error =>
        cases ho' : oracle' n with
        | ok r' =>
          cases r' with
          | some d => exact absurd ho' (h2 d)
          | none => simp [runLayers, ho, ho', hrest]
        | timeout => simp [runLayers, ho, ho', hrest]
        | error => simp [runLayers, ho, ho', hrest]

theorem queryFunctions_sublist (use_database use_question_bank : Bool)
    (cfg : String) (use_ai : Bool) :
    List.Sublist (queryFunctions use_database use_question_bank cfg use_ai)
      ["database", "question_bank", "ai"] := by
  cases use_database <;> cases use_question_bank <;> cases use_ai <;>
    by_cases h : cfg = "" <;> simp [queryFunctions, h]

theorem queryFunctions_nodup (use_database use_question_bank : Bool)
    (cfg : String) (use_ai : Bool) :
    (queryFunctions use_database use_question_bank cfg use_ai).Nodup :=
  (queryFunctions_sublist use_database use_question_bank cfg use_ai).nodup
    (by decide)

/-- On a cache miss, a call of the orchestrator is the layer loop. -/
theorem process_eq_of_miss (oracle : String → SourceOutcome)
    (ctx : OCSQuestionContext) (use_ai use_question_bank use_database : Bool)
    (cfg : String) (cache_ttl now : Nat) (cache c1 : CacheState)
    (hmiss : memory_cache_get cache now (question_hash (updatedContext ctx)) = (none, c1)) :
    process_question_with_multi_layer oracle ctx use_ai use_question_bank
        use_database cfg cache_ttl now cache =
      (match runLayers oracle (updatedContext ctx)
          (queryFunctions use_database use_question_bank cfg use_ai) with
       | (some r, inv, sv) =>
         ⟨some r, inv,
          memory_cache_set c1 now (question_hash (updatedContext ctx)) r (some cache_ttl), sv⟩
       | (none, inv, sv) => ⟨none, inv, c1, sv⟩) := by
  simp only [process_question_with_multi_layer]
  rw [hmiss]

/-- On a cache hit, a call of the orchestrator returns the cached result
and invokes no source. -/
theorem process_eq_of_hit (oracle : String → SourceOutcome)
    (ctx : OCSQuestionContext) (use_ai use_question_bank use_database : Bool)
    (cfg : String) (cache_ttl now : Nat) (cache c1 : CacheState) (v : AnswerDict)
    (hhit : memory_cache_get cache now (question_hash (updatedContext ctx)) = (some v, c1)) :
    process_question_with_multi_layer oracle ctx use_ai use_question_bank
        use_database cfg cache_ttl now cache = ⟨some v, [], c1, []⟩ := by
  simp only [process_question_with_multi_layer]
  rw [hhit]

/-! ### Claim theorems C1, C3, C4 -/

/-- Claim C1: per resolution call at most one answer result is produced
(the return type is a single optional dictionary); on a cache miss the
enabled sources form a sublist of the fixed order database, remote
question bank, AI; the invoked sources are an initial segment of that
list; iteration stops at the first source that yields a result (the
invoked list ends at that source, the result is non-empty, and no later
source — in particular AI — is ever invoked); and when no source yields a
result every enabled source is invoked and the result is empty. -/
theorem claim1_source_priority (oracle : String → SourceOutcome)
    (ctx : OCSQuestionContext) (use_ai use_question_bank use_database : Bool)
    (cfg : String) (cache_ttl now : Nat) (cache c1 : CacheState)
    (hmiss : memory_cache_get cache now (question_hash (updatedContext ctx)) = (none, c1)) :
    List.Sublist (queryFunctions use_database use_question_bank cfg use_ai)
      ["database", "question_bank", "ai"] ∧
    (∃ t, queryFunctions use_database use_question_bank cfg use_ai =
      (process_question_with_multi_layer oracle ctx use_ai use_question_bank
        use_database cfg cache_ttl now cache).invoked ++ t) ∧
    (∀ pre n post,
      queryFunctions use_database use_question_bank cfg use_ai = pre ++ n :: post →
      (∀ m ∈ pre, sourceSucceeds (oracle m) = false) →
      sourceSucceeds (oracle n) = true →
      (process_question_with_multi_layer oracle ctx use_ai use_question_bank
        use_database cfg cache_ttl now cache).invoked = pre ++ [n] ∧
      (process_question_with_multi_layer oracle ctx use_ai use_question_bank
        use_database cfg cache_ttl now cache).result.isSome = true ∧
      ∀ m ∈ post,
        m ∉ (process_question_with_multi_layer oracle ctx use_ai use_question_bank
          use_database cfg cache_ttl now cache).invoked) ∧
    ((∀ m ∈ queryFunctions use_database use_question_bank cfg use_ai,
        sourceSucceeds (oracle m) = false) →
      (process_question_with_multi_layer oracle ctx use_ai use_question_bank
        use_database cfg cache_ttl now cache).result = none ∧
      (process_question_with_multi_layer oracle ctx use_ai use_question_bank
        use_database cfg cache_ttl now cache).invoked =
        queryFunctions use_database use_question_bank cfg use_ai) := by
  have hP := process_eq_of_miss oracle ctx use_ai use_question_bank use_database
    cfg cache_ttl now cache c1 hmiss
  refine ⟨queryFunctions_sublist use_database use_question_bank cfg use_ai, ?_, ?_, ?_⟩
  · obtain ⟨t, ht⟩ := runLayers_invoked_prefix oracle (updatedContext ctx)
      (queryFunctions use_database use_question_bank cfg use_ai)
    rcases hrl : runLayers oracle (updatedContext ctx)
      (queryFunctions use_database use_question_bank cfg use_ai) with ⟨res, inv, sv⟩
    rw [hrl] at hP ht
    refine ⟨t, ?_⟩
    cases res <;> simp at hP <;> rw [hP] <;> exact ht
  · intro pre n post hsplit hpre hn
    have h1 := runLayers_prefix_fail oracle (updatedContext ctx) pre (n :: post) hpre
    have h2 := runLayers_head_success oracle (updatedContext ctx) n post hn
    rw [hsplit, h1] at hP
    have hnodup : (pre ++ n :: post).Nodup := by
      rw [← hsplit]; exact queryFunctions_nodup use_database use_question_bank cfg use_ai
    have hdisj : (pre ++ [n]).Disjoint post := by
      have : ((pre ++ [n]) ++ post).Nodup := by simpa using hnodup
      exact (List.nodup_append.mp this).2.2
    rcases hr2 : runLayers oracle (updatedContext ctx) (n :: post) with ⟨res2, inv2, sv2⟩
    rw [hr2] at hP h2
    simp at h2
    obtain ⟨hinv2, hsome⟩ := h2
    cases res2 with
    | none => simp at hsome
    | some r =>
      simp [hinv2] at hP
      rw [hP]
      refine ⟨rfl, rfl, ?_⟩
      intro m hm
      simp only []
      exact fun hmem => hdisj hmem hm
  · intro hall
    rw [runLayers_all_fail oracle (updatedContext ctx)
      (queryFunctions use_database use_question_bank cfg use_ai) hall] at hP
    simp at hP
    rw [hP]
    exact ⟨rfl, rfl⟩

/-- A concrete environment: the database answers, the other sources find
nothing. -/
def wOracle : String → SourceOutcome := fun n =>
  if n = "database" then .ok (some ⟨"题目", "A", "database", 1⟩) else .ok none

def wCtx : OCSQuestionContext := ⟨"题目", "single", ""⟩

def wCache : CacheState := ⟨[], 1000⟩

theorem claim1_source_priority_witness :
    (process_question_with_multi_layer wOracle wCtx true true true "[cfg]" 3600 0
      wCache).invoked = ["database"] ∧
    (process_question_with_multi_layer wOracle wCtx true true true "[cfg]" 3600 0
      wCache).result.isSome = true ∧
    "ai" ∉ (process_question_with_multi_layer wOracle wCtx true true true "[cfg]" 3600 0
      wCache).invoked := by
  obtain ⟨-, -, h3, -⟩ := claim1_source_priority wOracle wCtx true true true "[cfg]"
    3600 0 wCache wCache (by decide)
  have h4 := h3 [] "database" ["question_bank", "ai"] (by decide) (by simp) (by decide)
  exact ⟨h4.1, h4.2.1, h4.2.2 "ai" (by decide)⟩

/-- `oracle` with source `n`'s outcome replaced by `v`. -/
def updOracle (oracle : String → SourceOutcome) (n : String) (v : SourceOutcome) :
    String → SourceOutcome := fun m => if m = n then v else oracle m

/-- Claim C3: a timeout or an exception raised by a single source is caught
by the layer loop and the call behaves exactly as if that source had
returned no answer (the next source is tried, resolution is never
aborted); when every enabled source fails the call returns `None` rather
than raising; and `query_ai` maps a non-200 response, a malformed body or
a raised exception to `None`. -/
theorem claim3_soft_failures (oracle : String → SourceOutcome)
    (ctx : OCSQuestionContext) (use_ai use_question_bank use_database : Bool)
    (cfg : String) (cache_ttl now : Nat) (cache c1 : CacheState)
    (hmiss : memory_cache_get cache now (question_hash (updatedContext ctx)) = (none, c1)) :
    (∀ n, (oracle n = .timeout ∨ oracle n = .error) →
      process_question_with_multi_layer oracle ctx use_ai use_question_bank
        use_database cfg cache_ttl now cache =
      process_question_with_multi_layer (updOracle oracle n (.ok none)) ctx
        use_ai use_question_bank use_database cfg cache_ttl now cache) ∧
    ((∀ m ∈ queryFunctions use_database use_question_bank cfg use_ai,
        sourceSucceeds (oracle m) = false) →
      (process_question_with_multi_layer oracle ctx use_ai use_question_bank
        use_database cfg cache_ttl now cache).result = none) ∧
    (∀ st body, st ≠ 200 → query_ai ctx (.response st body) = none) ∧
    (∀ body, extract_ai_answer body = none → query_ai ctx (.response 200 body) = none) ∧
    query_ai ctx .exn = none := by
  refine ⟨?_, ?_, ?_, ?_, rfl⟩
  · intro n hn
    have hP1 := process_eq_of_miss oracle ctx use_ai use_question_bank use_database
      cfg cache_ttl now cache c1 hmiss
    have hP2 := process_eq_of_miss (updOracle oracle n (.ok none)) ctx use_ai
      use_question_bank use_database cfg cache_ttl now cache c1 hmiss
    rw [hP1, hP2]
    have hagree : runLayers oracle (updatedContext ctx)
        (queryFunctions use_database use_question_bank cfg use_ai) =
      runLayers (updOracle oracle n (.ok none)) (updatedContext ctx)
        (queryFunctions use_database use_question_bank cfg use_ai) := by
      apply runLayers_agree
      intro m _
      by_cases hmn : m = n
      · subst hmn
        refine Or.inr ⟨?_, ?_⟩
        · rcases hn with h | h <;> rw [h] <;> rfl
        · simp [updOracle, sourceSucceeds]
      · exact Or.inl (by simp [updOracle, hmn])
    rw [hagree]
  · intro hall
    have hP := process_eq_of_miss oracle ctx use_ai use_question_bank use_database
      cfg cache_ttl now cache c1 hmiss
    rw [runLayers_all_fail oracle (updatedContext ctx)
      (queryFunctions use_database use_question_bank cfg use_ai) hall] at hP
    simp at hP
    rw [hP]
  · intro st body hst
    simp [query_ai, hst]
  · intro body hb
    simp [query_ai, hb]

/-- A source environment whose database times out. -/
def wOracleT : String → SourceOutcome := fun n =>
  if n = "database" then .timeout else .ok none

theorem claim3_soft_failures_witness :
    process_question_with_multi_layer wOracleT wCtx true true true "" 3600 0 wCache =
      process_question_with_multi_layer (updOracle wOracleT "database" (.ok none))
        wCtx true true true "" 3600 0 wCache ∧
    (process_question_with_multi_layer wOracleT wCtx true true true "" 3600 0
      wCache).result = none ∧
    query_ai wCtx (.response 500 .null) = none := by
  obtain ⟨h1, h2, h3, -, -⟩ := claim3_soft_failures wOracleT wCtx true true true ""
    3600 0 wCache wCache (by decide)
  exact ⟨h1 "database" (Or.inl (by decide)), h2 (by decide), h3 500 .null (by decide)⟩

/-- Claim C4 counterexample: the orchestrator is not stateless across
calls.  Starting from an empty cache, a first call for `wCtx` resolves via
the database (invoking `["database"]`); a second call with the same title,
type and options is served from the cache left behind by the first call
and invokes no source at all, so it does not invoke the same sequence of
sources as the first call. -/
theorem claim4_counterexample :
    (process_question_with_multi_layer wOracle wCtx true true true "" 3600 0
      wCache).invoked = ["database"] ∧
    (process_question_with_multi_layer wOracle wCtx true true true "" 3600 0
      (process_question_with_multi_layer wOracle wCtx true true true "" 3600 0
        wCache).cache).invoked = [] ∧
    (process_question_with_multi_layer wOracle wCtx true true true "" 3600 0
      (process_question_with_multi_layer wOracle wCtx true true true "" 3600 0
        wCache).cache).result =
      (process_question_with_multi_layer wOracle wCtx true true true "" 3600 0
        wCache).result ∧
    (process_question_with_multi_layer wOracle wCtx true true true "" 3600 0
      (process_question_with_multi_layer wOracle wCtx true true true "" 3600 0
        wCache).cache).invoked ≠
      (process_question_with_multi_layer wOracle wCtx true true true "" 3600 0
        wCache).invoked := by decide

/-- Claim C4 amended: the orchestrator is deterministic in the question
context, the source outcomes and the cache state, but it persists state
across calls through the cache: after a first call (from an empty cache)
that produced an answer, a second call with the same normalized title,
type and options within the TTL returns that same answer from the cache
and invokes no source at all. -/
theorem claim4_cache_persistence (oracle : String → SourceOutcome)
    (ctx : OCSQuestionContext) (use_ai use_question_bank use_database : Bool)
    (cfg : String) (cache_ttl now now2 M : Nat) (r : AnswerDict)
    (hM : 1 ≤ M)
    (hrun : (process_question_with_multi_layer oracle ctx use_ai use_question_bank
      use_database cfg cache_ttl now ⟨[], M⟩).result = some r)
    (ht : now2 < now + cache_ttl) :
    (process_question_with_multi_layer oracle ctx use_ai use_question_bank
      use_database cfg cache_ttl now2
      (process_question_with_multi_layer oracle ctx use_ai use_question_bank
        use_database cfg cache_ttl now ⟨[], M⟩).cache).result = some r ∧
    (process_question_with_multi_layer oracle ctx use_ai use_question_bank
      use_database cfg cache_ttl now2
      (process_question_with_multi_layer oracle ctx use_ai use_question_bank
        use_database cfg cache_ttl now ⟨[], M⟩).cache).invoked = [] := by
  have hmiss : memory_cache_get ⟨[], M⟩ now (question_hash (updatedContext ctx)) =
      (none, (⟨[], M⟩ : CacheState)) := rfl
  have hP := process_eq_of_miss oracle ctx use_ai use_question_bank use_database
    cfg cache_ttl now ⟨[], M⟩ ⟨[], M⟩ hmiss
  rcases hrl : runLayers oracle (updatedContext ctx)
    (queryFunctions use_database use_question_bank cfg use_ai) with ⟨res, inv, sv⟩
  rw [hrl] at hP
  cases res with
  | none => rw [hP] at hrun; simp at hrun
  | some r0 =>
    simp only [] at hP
    rw [hP] at hrun
    simp at hrun
    subst hrun
    rw [hP]
    have hsub : 1 - M = 0 := Nat.sub_eq_zero_of_le hM
    have hset : memory_cache_set ⟨[], M⟩ now (question_hash (updatedContext ctx))
        r0 (some cache_ttl) =
        ⟨[(question_hash (updatedContext ctx), r0, some (now + cache_ttl))], M⟩ := by
      simp [memory_cache_set, setEntry, lookupEntry, hsub]
    have hhit : memory_cache_get
        ⟨[(question_hash (updatedContext ctx), r0, some (now + cache_ttl))], M⟩
        now2 (question_hash (updatedContext ctx)) =
        (some r0,
         ⟨[(question_hash (updatedContext ctx), r0, some (now + cache_ttl))], M⟩) := by
      simp [memory_cache_get, lookupEntry, removeEntry, expLive, ht]
    have hP2 := process_eq_of_hit oracle ctx use_ai use_question_bank use_database
      cfg cache_ttl now2 _ _ r0 hhit
    simp only [hset]
    rw [hP2]
    exact ⟨rfl, rfl⟩

theorem claim4_cache_persistence_witness :
    (process_question_with_multi_layer wOracle wCtx true true true "" 3600 1
      (process_question_with_multi_layer wOracle wCtx true true true "" 3600 0
        wCache).cache).result = some ⟨"题目", "A", "database", 1⟩ ∧
    (process_question_with_multi_layer wOracle wCtx true true true "" 3600 1
      (process_question_with_multi_layer wOracle wCtx true true true "" 3600 0
        wCache).cache).invoked = [] :=
  claim4_cache_persistence wOracle wCtx true true true "" 3600 0 1 1000
    ⟨"题目", "A", "database", 1⟩ (by decide) (by decide) (by decide)

/-! ### Claim theorems C2, C5, C6, C7, C8 -/

/-- Claim C2: `app.utils.answer_processor` (line 17) imports
`get_question_answer_by_full_match` and `normalize_options` from
`app.models.db_utils`, which defines neither, and `app.routers.answer`
(line 10) imports `load_manual_question_bank` and
`MANUAL_QUESTION_BANK_PATH` from `app.utils.answer_processor`, which
defines neither; so importing the answer router always fails (the
database / manual-bank lookup layer can never serve an answer). -/
theorem claim2_broken_imports :
    db_utils_module_names.contains "get_question_answer_by_full_match" = false ∧
    db_utils_module_names.contains "normalize_options" = false ∧
    answer_processor_module_names.contains "load_manual_question_bank" = false ∧
    answer_processor_module_names.contains "MANUAL_QUESTION_BANK_PATH" = false ∧
    answer_processor_loads = false ∧
    answer_router_loads = false := by decide

/-- Claim C5: of the spec's three type-detection examples, the first two
hold (`"1+1=__"` with no options is `completion`; a question containing
`"(多选)"` with options is `multiple`), but the third diverges: the code
returns `completion` — not `judgment` — for `"天是圆的吗(判断)"` with no
options, because the pattern `[（\(][\s判断\s][）\)]` is a character class
matching a single character between the brackets (it would need `判断` as
a two-character sequence) and the no-options judgment keyword fallback
`[对错]|正确|错误|是否|对吗` matches nothing in this question. -/
theorem claim5_detect_examples :
    detect_question_type "1+1=__" "" = "completion" ∧
    detect_question_type "本题(多选)" "A.甲\nB.乙" = "multiple" ∧
    detect_question_type "天是圆的吗(判断)" "" = "completion" ∧
    detect_question_type "天是圆的吗(判断)" "" ≠ "judgment" := by decide

/-- Claim C6 counterexample: for type `single` the code never extracts an
uppercase letter token from the raw answer: `"答案是B"` (which contains
the letter `B`) and `"a"` both pass through unchanged with no options. -/
theorem claim6_counterexample :
    normalize_answer_for_type "答案是B" "single" "" = "答案是B" ∧
    normalize_answer_for_type "答案是B" "single" "" ≠ "B" ∧
    normalize_answer_for_type "a" "single" "" = "a" ∧
    normalize_answer_for_type "a" "single" "" ≠ "A" := by decide

/-- Claim C6 amended: for type `single` an answer whose stripped form
consists solely of capital letters and `#` passes through (stripped but
otherwise unchanged) — in particular a lone letter `"A"` — and `"B#D"`
passes through unchanged for type `multiple`; there is no uppercase-letter
extraction: a letter is only recovered by matching option text when
options are supplied, and otherwise the answer is returned unchanged
(so `normalize_answer_for_type("a", "single", "")` is `"a"`, not `"A"`). -/
theorem claim6_single_passthrough (a opts : String) (h1 : a ≠ "")
    (h2 : matchesUpperHash (pyStrip a.data) = true) :
    normalize_answer_for_type a "single" opts = ⟨pyStrip a.data⟩ ∧
    normalize_answer_for_type "B#D" "multiple" "" = "B#D" ∧
    normalize_answer_for_type "A" "single" "" = "A" ∧
    normalize_answer_for_type "a" "single" "" = "a" := by
  refine ⟨?_, by decide, by decide, by decide⟩
  simp [normalize_answer_for_type, h1, h2]

theorem claim6_single_passthrough_witness :
    normalize_answer_for_type "AB" "single" "O" = "AB" ∧
    normalize_answer_for_type "B#D" "multiple" "" = "B#D" ∧
    normalize_answer_for_type "A" "single" "" = "A" ∧
    normalize_answer_for_type "a" "single" "" = "a" :=
  claim6_single_passthrough "AB" "O" (by decide) (by decide)

/-- Claim C7 counterexample: the affirmative vocabulary of the judgment
formatter does not contain `是` or `yes`; both pass through unchanged
instead of mapping to `对`. -/
theorem claim7_counterexample :
    normalize_answer_for_type "是" "judgment" "" = "是" ∧
    normalize_answer_for_type "是" "judgment" "" ≠ "对" ∧
    normalize_answer_for_type "yes" "judgment" "" = "yes" ∧
    normalize_answer_for_type "yes" "judgment" "" ≠ "对" := by decide

/-- Claim C7 amended: for type `judgment` the affirmative vocabulary is
exactly 对/正确/√/T/true/True (mapped to `对`), the negative vocabulary is
exactly 错/错误/×/F/false/False (mapped to `错`), and every other
(already-stripped) answer — in particular `是` and `yes` — is returned
unmodified. -/
theorem claim7_judgment_vocab (a opts : String) (h0 : a ≠ "")
    (hs : pyStrip a.data = a.data)
    (hna : (["对", "正确", "√", "T", "true", "True"] : List String).contains a = false)
    (hnn : (["错", "错误", "×", "F", "false", "False"] : List String).contains a = false) :
    (∀ t ∈ (["对", "正确", "√", "T", "true", "True"] : List String),
      normalize_answer_for_type t "judgment" opts = "对") ∧
    (∀ t ∈ (["错", "错误", "×", "F", "false", "False"] : List String),
      normalize_answer_for_type t "judgment" opts = "错") ∧
    normalize_answer_for_type a "judgment" opts = a := by
  refine ⟨?_, ?_, ?_⟩
  · intro t ht; fin_cases ht <;> rfl
  · intro t ht; fin_cases ht <;> rfl
  · have heta : (⟨a.data⟩ : String) = a := rfl
    have hna2 : ¬(a = "对" ∨ a = "正确" ∨ a = "√" ∨ a = "T" ∨ a = "true" ∨ a = "True") := by
      simpa using hna
    have hnn2 : ¬(a = "错" ∨ a = "错误" ∨ a = "×" ∨ a = "F" ∨ a = "false" ∨ a = "False") := by
      simpa using hnn
    simp [normalize_answer_for_type, h0, hs, heta, hna2, hnn2]

theorem claim7_judgment_vocab_witness :
    (∀ t ∈ (["对", "正确", "√", "T", "true", "True"] : List String),
      normalize_answer_for_type t "judgment" "X" = "对") ∧
    (∀ t ∈ (["错", "错误", "×", "F", "false", "False"] : List String),
      normalize_answer_for_type t "judgment" "X" = "错") ∧
    normalize_answer_for_type "也许" "judgment" "X" = "也许" :=
  claim7_judgment_vocab "也许" "X" (by decide) (by decide) (by decide) (by decide)

/-- Claim C8 counterexample: the text normalizer is not idempotent.
`clean_question_text` removes the semicolon of `"点;击上传"` (the
punctuation-class substitution), creating the noise literal `点击上传`,
which a second application removes entirely. -/
theorem claim8_counterexample :
    clean_question_text "点;击上传" = "点击上传" ∧
    clean_question_text (clean_question_text "点;击上传") = "" ∧
    clean_question_text (clean_question_text "点;击上传") ≠
      clean_question_text "点;击上传" := by decide

/-- Claim C8 amended: `clean_question_text` is not idempotent in general
(a second application can strip further, as the counterexample shows); the
empty string is a fixed point, and consequently the normalizer is
idempotent on every input whose cleaned form is empty. -/
theorem claim8_idempotent_on_empty (x : String) (h : clean_question_text x = "") :
    clean_question_text "" = "" ∧
    clean_question_text (clean_question_text x) = clean_question_text x := by
  rw [h]
  exact ⟨rfl, rfl⟩

theorem claim8_idempotent_on_empty_witness :
    clean_question_text "" = "" ∧
    clean_question_text (clean_question_text "x") = clean_question_text "x" :=
  claim8_idempotent_on_empty "x" (by decide)

/-! ### Claim theorems C9, C10 -/

/-- Claim C9 counterexample: the `ocs_standard` adapter never consults the
`answer` key (only `answers`): for `{code: 1, data: {title: "t",
answer: "x"}}` it yields `["t", ""]`, not `["t", "x"]`; and it enforces no
shape beyond dict-ness: for the dict `{code: 1}` without any `data` it
still yields a result `["", ""]` instead of none. -/
theorem claim9_counterexample :
    execute_ocs_standard (.obj [("code", .num 1),
      ("data", .obj [("title", .str "t"), ("answer", .str "x")])]) =
      some [.str "t", .str ""] ∧
    some [JValue.str "t", JValue.str ""] ≠ some [JValue.str "t", JValue.str "x"] ∧
    execute_ocs_standard (.obj [("code", .num 1)]) = some [.str "", .str ""] := by
  refine ⟨rfl, ?_, rfl⟩
  simp

/-- Claim C9 amended: applied to a decoded response, `ocs_standard` yields
the pair `[data.title or "", data.answers or ""]` for every dict whose
`code` equals the success sentinel 1 and whose `data` (defaulting to the
empty dict when absent) is a dict — the `answer` key is never used and no
shape beyond dict-ness is required — and yields no result for every
non-dict response, every dict whose `code` differs from 1, and every dict
whose `data` is present but not a dict (where the adapter raises and the
executor's `try` returns none). -/
theorem claim9_ocs_standard (fields d : List (String × JValue)) (w : JValue) :
    (pyEqNum ((jlookup fields "code").getD .null) 1 = true →
      jlookup fields "data" = some (.obj d) →
      execute_ocs_standard (.obj fields) =
        some [(jlookup d "title").getD (.str ""),
              (jlookup d "answers").getD (.str "")]) ∧
    (pyEqNum ((jlookup fields "code").getD .null) 1 = true →
      jlookup fields "data" = none →
      execute_ocs_standard (.obj fields) = some [.str "", .str ""]) ∧
    (pyEqNum ((jlookup fields "code").getD .null) 1 = false →
      execute_ocs_standard (.obj fields) = none) ∧
    (pyEqNum ((jlookup fields "code").getD .null) 1 = true →
      jlookup fields "data" = some w → (∀ d2, w ≠ .obj d2) →
      execute_ocs_standard (.obj fields) = none) ∧
    (∀ s, execute_ocs_standard (.str s) = none) ∧
    (∀ n : Int, execute_ocs_standard (.num n) = none) ∧
    (∀ el, execute_ocs_standard (.arr el) = none) ∧
    execute_ocs_standard .null = none := by
  refine ⟨?_, ?_, ?_, ?_, fun s => rfl, fun n => rfl, fun el => rfl, rfl⟩
  · intro hc hd
    simp [execute_ocs_standard, ocs_standard_adapter, hc, hd]
  · intro hc hd
    simp [execute_ocs_standard, ocs_standard_adapter, hc, hd, jlookup]
  · intro hc
    simp [execute_ocs_standard, ocs_standard_adapter, hc]
  · intro hc hd hw
    cases w with
    | obj d2 => exact absurd rfl (hw d2)
    | null => simp [execute_ocs_standard, ocs_standard_adapter, hc, hd]
    | bool b => simp [execute_ocs_standard, ocs_standard_adapter, hc, hd]
    | num n => simp [execute_ocs_standard, ocs_standard_adapter, hc, hd]
    | str s => simp [execute_ocs_standard, ocs_standard_adapter, hc, hd]
    | arr el => simp [execute_ocs_standard, ocs_standard_adapter, hc, hd]

theorem claim9_ocs_standard_witness :
    execute_ocs_standard (.obj [("code", .num 1),
      ("data", .obj [("title", .str "t"), ("answers", .str "a"), ("answer", .str "z")])]) =
      some [.str "t", .str "a"] ∧
    execute_ocs_standard (.obj [("code", .num 0)]) = none := by
  obtain ⟨h1, -, h3, -⟩ := claim9_ocs_standard
    [("code", .num 1),
     ("data", .obj [("title", .str "t"), ("answers", .str "a"), ("answer", .str "z")])]
    [("title", .str "t"), ("answers", .str "a"), ("answer", .str "z")] .null
  refine ⟨h1 rfl rfl, ?_⟩
  obtain ⟨-, -, h3b, -⟩ := claim9_ocs_standard [("code", .num 0)] [] .null
  exact h3b rfl

/-! ### Lemmas about the configuration validator -/

/-- Is the optional field value a string? -/
def strOk (o : Option JValue) : Bool :=
  match o with | some (.str _) => true | _ => false

/-- Is the optional enum field absent or one of its two allowed values? -/
def enumOk (o : Option JValue) (a b : String) : Bool :=
  match o with | none => true | some v => jvEqStr v a || jvEqStr v b

/-- The element condition of the amended claim C10: a JSON object whose
`url`, `name` and `handler` are strings, whose `method` (if present) is
`get`/`post`, whose `contentType` (if present) is `json`/`text` and whose
`type` (if present) is `fetch`/`GM_xmlhttpRequest`. -/
def wellFormedConfig (cfg : JValue) : Bool :=
  match cfg with
  | .obj fields =>
    strOk (jlookup fields "url") && strOk (jlookup fields "name") &&
    strOk (jlookup fields "handler") &&
    enumOk (jlookup fields "method") "get" "post" &&
    enumOk (jlookup fields "contentType") "json" "text" &&
    enumOk (jlookup fields "type") "fetch" "GM_xmlhttpRequest"
  | _ => false

theorem strOk_some {o : Option JValue} (h : strOk o = true) :
    ∃ s, o = some (.str s) := by
  match o with
  | some (.str s) => exact ⟨s, rfl⟩
  | none => simp [strOk] at h
  | some .null => simp [strOk] at h
  | some (.bool _) => simp [strOk] at h
  | some (.num _) => simp [strOk] at h
  | some (.arr _) => simp [strOk] at h
  | some (.obj _) => simp [strOk] at h

theorem validate_enum_type_of_wf (f : List (String × JValue)) (i : Nat)
    (ht : enumOk (jlookup f "type") "fetch" "GM_xmlhttpRequest" = true) :
    validate_enum_type (.obj f) i = .ok { valid := true, config := some (.obj f) } := by
  cases hx : jlookup f "type" with
  | none => simp [validate_enum_type, pyContains, hx]
  | some v =>
    rw [hx] at ht
    simp only [enumOk] at ht
    rcases (Bool.or_eq_true _ _).mp ht with h1 | h1 <;>
      simp [validate_enum_type, pyContains, pySubscript, hx, h1]

theorem validate_enum_contentType_of_wf (f : List (String × JValue)) (i : Nat)
    (hc : enumOk (jlookup f "contentType") "json" "text" = true)
    (ht : enumOk (jlookup f "type") "fetch" "GM_xmlhttpRequest" = true) :
    validate_enum_contentType (.obj f) i = .ok { valid := true, config := some (.obj f) } := by
  cases hx : jlookup f "contentType" with
  | none => simp [validate_enum_contentType, pyContains, hx, validate_enum_type_of_wf f i ht]
  | some v =>
    rw [hx] at hc
    simp only [enumOk] at hc
    rcases (Bool.or_eq_true _ _).mp hc with h1 | h1 <;>
      simp [validate_enum_contentType, pyContains, pySubscript, hx, h1,
        validate_enum_type_of_wf f i ht]

theorem validate_enum_method_of_wf (f : List (String × JValue)) (i : Nat)
    (hm : enumOk (jlookup f "method") "get" "post" = true)
    (hc : enumOk (jlookup f "contentType") "json" "text" = true)
    (ht : enumOk (jlookup f "type") "fetch" "GM_xmlhttpRequest" = true) :
    validate_enum_method (.obj f) i = .ok { valid := true, config := some (.obj f) } := by
  cases hx : jlookup f "method" with
  | none =>
    simp [validate_enum_method, pyContains, hx, validate_enum_contentType_of_wf f i hc ht]
  | some v =>
    rw [hx] at hm
    simp only [enumOk] at hm
    rcases (Bool.or_eq_true _ _).mp hm with h1 | h1 <;>
      simp [validate_enum_method, pyContains, pySubscript, hx, h1,
        validate_enum_contentType_of_wf f i hc ht]

/-- A well-formed element passes `validate_single_config`. -/
theorem validate_single_of_wf (f : List (String × JValue)) (i : Nat)
    (h : wellFormedConfig (.obj f) = true) :
    validate_single_config (.obj f) i = .ok { valid := true, config := some (.obj f) } := by
  simp only [wellFormedConfig, Bool.and_eq_true] at h
  obtain ⟨⟨⟨⟨⟨hu, hn⟩, hh⟩, hm⟩, hc⟩, ht⟩ := h
  obtain ⟨u, hu2⟩ := strOk_some hu
  obtain ⟨nm, hn2⟩ := strOk_some hn
  obtain ⟨hl, hh2⟩ := strOk_some hh
  simp [validate_single_config, pyContains, pySubscript, hu2, hn2, hh2, isJStr,
    validate_enum_method_of_wf f i hm hc ht]

theorem wf_of_validate_enum_type (f : List (String × JValue)) (i : Nat) (r : VRes)
    (h : validate_enum_type (.obj f) i = .ok r) (hv : r.valid = true) :
    enumOk (jlookup f "type") "fetch" "GM_xmlhttpRequest" = true := by
  cases hx : jlookup f "type" with
  | none => simp [enumOk]
  | some v =>
    by_cases hb : (jvEqStr v "fetch" || jvEqStr v "GM_xmlhttpRequest") = true
    · simp [enumOk, hb]
    · simp [validate_enum_type, pyContains, pySubscript, hx, hb] at h
      rw [← h] at hv
      simp at hv

theorem wf_of_validate_enum_contentType (f : List (String × JValue)) (i : Nat) (r : VRes)
    (h : validate_enum_contentType (.obj f) i = .ok r) (hv : r.valid = true) :
    enumOk (jlookup f "contentType") "json" "text" = true ∧
    enumOk (jlookup f "type") "fetch" "GM_xmlhttpRequest" = true := by
  cases hx : jlookup f "contentType" with
  | none =>
    simp only [validate_enum_contentType, pyContains, hx] at h
    simp at h
    exact ⟨by simp [enumOk], wf_of_validate_enum_type f i r h hv⟩
  | some v =>
    by_cases hb : (jvEqStr v "json" || jvEqStr v "text") = true
    · simp only [validate_enum_contentType, pyContains, pySubscript, hx] at h
      simp [hb] at h
      exact ⟨by simp [enumOk, hb], wf_of_validate_enum_type f i r h hv⟩
    · simp [validate_enum_contentType, pyContains, pySubscript, hx, hb] at h
      rw [← h] at hv
      simp at hv

theorem wf_of_validate_enum_method (f : List (String × JValue)) (i : Nat) (r : VRes)
    (h : validate_enum_method (.obj f) i = .ok r) (hv : r.valid = true) :
    enumOk (jlookup f "method") "get" "post" = true ∧
    enumOk (jlookup f "contentType") "json" "text" = true ∧
    enumOk (jlookup f "type") "fetch" "GM_xmlhttpRequest" = true := by
  cases hx : jlookup f "method" with
  | none =>
    simp only [validate_enum_method, pyContains, hx] at h
    simp at h
    exact ⟨by simp [enumOk], wf_of_validate_enum_contentType f i r h hv⟩
  | some v =>
    by_cases hb : (jvEqStr v "get" || jvEqStr v "post") = true
    · simp only [validate_enum_method, pyContains, pySubscript, hx] at h
      simp [hb] at h
      exact ⟨by simp [enumOk, hb], wf_of_validate_enum_contentType f i r h hv⟩
    · simp [validate_enum_method, pyContains, pySubscript, hx, hb] at h
      rw [← h] at hv
      simp at hv

/-- If `validate_single_config` accepts a JSON object, the object is
well-formed in the sense of the amended claim. -/
theorem wf_of_validate_single_obj (f : List (String × JValue)) (i : Nat) (r : VRes)
    (h : validate_single_config (.obj f) i = .ok r) (hv : r.valid = true) :
    wellFormedConfig (.obj f) = true := by
  cases hu : jlookup f "url" with
  | none =>
    simp [validate_single_config, pyContains, hu] at h
    rw [← h] at hv
    simp [missingFieldErr] at hv
  | some uv =>
    cases hn : jlookup f "name" with
    | none =>
      simp [validate_single_config, pyContains, hu, hn] at h
      rw [← h] at hv
      simp [missingFieldErr] at hv
    | some nv =>
      cases hh : jlookup f "handler" with
      | none =>
        simp [validate_single_config, pyContains, hu, hn, hh] at h
        rw [← h] at hv
        simp [missingFieldErr] at hv
      | some hvv =>
        by_cases hsu : isJStr uv = true
        · by_cases hsn : isJStr nv = true
          · by_cases hsh : isJStr hvv = true
            · simp only [validate_single_config, pyContains, pySubscript,
                hu, hn, hh] at h
              simp [hsu, hsn, hsh] at h
              obtain ⟨hm, hc, ht⟩ := wf_of_validate_enum_method f i r h hv
              cases uv with
              | str u =>
                cases nv with
                | str n2 =>
                  cases hvv with
                  | str h2 => simp [wellFormedConfig, strOk, hu, hn, hh, hm, hc, ht]
                  | null => simp [isJStr] at hsh
                  | bool b => simp [isJStr] at hsh
                  | num n3 => simp [isJStr] at hsh
                  | arr el => simp [isJStr] at hsh
                  | obj f2 => simp [isJStr] at hsh
                | null => simp [isJStr] at hsn
                | bool b => simp [isJStr] at hsn
                | num n3 => simp [isJStr] at hsn
                | arr el => simp [isJStr] at hsn
                | obj f2 => simp [isJStr] at hsn
              | null => simp [isJStr] at hsu
              | bool b => simp [isJStr] at hsu
              | num n3 => simp [isJStr] at hsu
              | arr el => simp [isJStr] at hsu
              | obj f2 => simp [isJStr] at hsu
            · simp [validate_single_config, pyContains, pySubscript,
                hu, hn, hh, hsu, hsn, hsh] at h
              rw [← h] at hv
              simp [notStringErr] at hv
          · simp [validate_single_config, pyContains, pySubscript,
              hu, hn, hh, hsu, hsn] at h
            rw [← h] at hv
            simp [notStringErr] at hv
        · simp [validate_single_config, pyContains, pySubscript,
            hu, hn, hh, hsu] at h
          rw [← h] at hv
          simp [notStringErr] at hv

/-- A decoded element that is a JSON string is never accepted: either a
required field is reported missing (substring test fails) or the string
subscript raises. -/
theorem validate_single_str_not_valid (s : String) (i : Nat) (r : VRes)
    (h : validate_single_config (.str s) i = .ok r) : r.valid = false := by
  by_cases b1 : containsL "url".data s.data = true
  · by_cases b2 : containsL "name".data s.data = true
    · by_cases b3 : containsL "handler".data s.data = true
      · simp [validate_single_config, pyContains, pySubscript, b1, b2, b3] at h
      · simp [validate_single_config, pyContains, pySubscript, b1, b2, b3] at h
        rw [← h]
        rfl
    · simp [validate_single_config, pyContains, pySubscript, b1, b2] at h
      rw [← h]
      rfl
  · simp [validate_single_config, pyContains, pySubscript, b1] at h
    rw [← h]
    rfl

/-- A decoded element that is a JSON array is never accepted. -/
theorem validate_single_arr_not_valid (el : List JValue) (i : Nat) (r : VRes)
    (h : validate_single_config (.arr el) i = .ok r) : r.valid = false := by
  by_cases b1 : el.any (fun e => jvEqStr e "url") = true
  · by_cases b2 : el.any (fun e => jvEqStr e "name") = true
    · by_cases b3 : el.any (fun e => jvEqStr e "handler") = true
      · simp [validate_single_config, pyContains, pySubscript, b1, b2, b3] at h
      · simp [validate_single_config, pyContains, pySubscript, b1, b2, b3] at h
        rw [← h]
        rfl
    · simp [validate_single_config, pyContains, pySubscript, b1, b2] at h
      rw [← h]
      rfl
  · simp [validate_single_config, pyContains, pySubscript, b1] at h
    rw [← h]
    rfl

/-- An element that is not well-formed is never accepted as valid. -/
theorem validate_single_not_wf (cfg : JValue) (i : Nat)
    (hwf : wellFormedConfig cfg = false) (r : VRes)
    (h : validate_single_config cfg i = .ok r) : r.valid = false := by
  cases cfg with
  | null => simp [validate_single_config, pyContains] at h
  | bool b => simp [validate_single_config, pyContains] at h
  | num n => simp [validate_single_config, pyContains] at h
  | str s => exact validate_single_str_not_valid s i r h
  | arr el => exact validate_single_arr_not_valid el i r h
  | obj f =>
    by_cases hv : r.valid = true
    · rw [wf_of_validate_single_obj f i r h hv] at hwf
      exact absurd hwf (by simp)
    · simpa using hv

/-- Skipping a well-formed prefix advances the element index. -/
theorem validateAll_append_wf (pre rest : List JValue) (i : Nat)
    (h : ∀ c ∈ pre, wellFormedConfig c = true) :
    validateAll (pre ++ rest) i = validateAll rest (i + pre.length) := by
  induction pre generalizing i with
  | nil => simp
  | cons c pre' ih =>
    have hc := h c (by simp)
    have hobj : ∃ f, c = .obj f := by
      cases c with
      | obj f => exact ⟨f, rfl⟩
      | null => simp [wellFormedConfig] at hc
      | bool b => simp [wellFormedConfig] at hc
      | num n => simp [wellFormedConfig] at hc
      | str s => simp [wellFormedConfig] at hc
      | arr el => simp [wellFormedConfig] at hc
    obtain ⟨f, rfl⟩ := hobj
    have hstep := validate_single_of_wf f i hc
    have hrest := ih (i + 1) (fun m hm => h m (by simp [hm]))
    simp only [List.cons_append, validateAll, hstep]
    simp only [List.append_eq, if_true]
    rw [hrest]
    congr 1
    simp [List.length_cons]
    omega

/-- The `valid=False` dictionary the caller reports for the first failing
element: `validate_single_config`'s own result, or (when it raised) the
`验证出错` wrapper of the outer `except`. -/
def firstFailureResult (bad : JValue) (i : Nat) : VRes :=
  match validate_single_config bad i with
  | .ok r => r
  | .error e => { valid := false, error := some ("验证出错: " ++ e) }

theorem validateAll_first_bad (bad : JValue) (post : List JValue) (i : Nat)
    (hbad : wellFormedConfig bad = false) :
    validateAll (bad :: post) i =
      match validate_single_config bad i with
      | .error e => .error e
      | .ok r => .ok (some r) := by
  cases hb : validate_single_config bad i with
  | error e => simp [validateAll, hb]
  | ok r =>
    have hrv := validate_single_not_wf bad i hbad r hb
    simp [validateAll, hb, hrv]

/-- Claim C10 counterexample: an element whose `url`, `name` and `handler`
are strings and whose `method`/`contentType` are absent — so the claim's
conditions all hold — is nevertheless rejected when it carries a `type`
field outside `fetch`/`GM_xmlhttpRequest`: the validator also checks the
`type` enum, which the claim omits. -/
theorem claim10_counterexample :
    (validate_ocs_config (.ok (.arr [.obj [("url", .str "u"), ("name", .str "n"),
      ("handler", .str "h"), ("type", .str "xhr")]]))).valid = false ∧
    (validate_ocs_config (.ok (.arr [.obj [("url", .str "u"), ("name", .str "n"),
      ("handler", .str "h"), ("type", .str "xhr")]]))).error =
      some "配置[0]的type必须是'fetch'或'GM_xmlhttpRequest'" := ⟨rfl, rfl⟩

/-- Claim C10 amended: `validate_ocs_config` returns `valid=true` with the
count and the configs exactly when the decoded input is a JSON array (or a
single object, wrapped into a one-element list) in which every element has
string fields `url`, `name`, `handler`, any present `method` is
`get`/`post`, any present `contentType` is `json`/`text`, **and any
present `type` is `fetch`/`GM_xmlhttpRequest`**; otherwise it returns
`valid=false` with the first failing element's own error (naming that
element's index and the missing or invalid field), a decode error for
unparseable input, and a type error for non-array/object input. -/
theorem claim10_validator (l : List JValue) (f0 : List (String × JValue)) :
    ((∀ cfg ∈ l, wellFormedConfig cfg = true) →
      validate_ocs_config (.ok (.arr l)) =
        { valid := true, count := some l.length, configs := some l }) ∧
    (wellFormedConfig (.obj f0) = true →
      validate_ocs_config (.ok (.obj f0)) =
        { valid := true, count := some 1, configs := some [.obj f0] }) ∧
    (∀ pre bad post, l = pre ++ bad :: post →
      (∀ c ∈ pre, wellFormedConfig c = true) → wellFormedConfig bad = false →
      validate_ocs_config (.ok (.arr l)) = firstFailureResult bad pre.length ∧
      (firstFailureResult bad pre.length).valid = false) ∧
    (∀ e, validate_ocs_config (.error e) =
      { valid := false, error := some ("JSON解析错误: " ++ e) }) ∧
    validate_ocs_config (.ok (.obj [("url", .str "https://x"), ("name", .str "bank")])) =
      { valid := false, error := some "配置[0]缺少必需字段: handler" } := by
  refine ⟨?_, ?_, ?_, fun e => rfl, rfl⟩
  · intro hall
    have h1 : validateAll (l ++ []) 0 = validateAll [] (0 + l.length) :=
      validateAll_append_wf l [] 0 hall
    simp at h1
    simp [validate_ocs_config, h1, validateAll]
  · intro hwf
    simp [validate_ocs_config, validateAll, validate_single_of_wf f0 0 hwf]
  · intro pre bad post hsplit hpre hbad
    subst hsplit
    have h1 : validateAll (pre ++ bad :: post) 0 = validateAll (bad :: post) (0 + pre.length) :=
      validateAll_append_wf pre (bad :: post) 0 hpre
    have h2 := validateAll_first_bad bad post (0 + pre.length) hbad
    rw [h2] at h1
    simp only [Nat.zero_add] at h1
    constructor
    · cases hb : validate_single_config bad pre.length with
      | error e =>
        rw [hb] at h1
        simp [validate_ocs_config, h1, firstFailureResult, hb]
      | ok r =>
        rw [hb] at h1
        simp [validate_ocs_config, h1, firstFailureResult, hb]
    · cases hb : validate_single_config bad pre.length with
      | error e => simp [firstFailureResult, hb]
      | ok r =>
        simp [firstFailureResult, hb]
        exact validate_single_not_wf bad pre.length hbad r hb

theorem claim10_validator_witness :
    validate_ocs_config (.ok (.arr [.obj [("url", .str "u"), ("name", .str "n"),
      ("handler", .str "h"), ("method", .str "post"), ("contentType", .str "json"),
      ("type", .str "fetch")]])) =
      { valid := true, count := some 1,
        configs := some [.obj [("url", .str "u"), ("name", .str "n"),
          ("handler", .str "h"), ("method", .str "post"), ("contentType", .str "json"),
          ("type", .str "fetch")]] } ∧
    validate_ocs_config (.ok (.arr [.obj [("url", .str "u"), ("name", .str "n")]])) =
      firstFailureResult (.obj [("url", .str "u"), ("name", .str "n")]) 0 ∧
    (firstFailureResult (.obj [("url", .str "u"), ("name", .str "n")]) 0).valid = false := by
  obtain ⟨h1, -, -, -, -⟩ := claim10_validator
    [.obj [("url", .str "u"), ("name", .str "n"), ("handler", .str "h"),
      ("method", .str "post"), ("contentType", .str "json"), ("type", .str "fetch")]] []
  obtain ⟨-, -, h3, -, -⟩ := claim10_validator
    [.obj [("url", .str "u"), ("name", .str "n")]] []
  have h4 := h3 [] (.obj [("url", .str "u"), ("name", .str "n")]) [] rfl
    (by simp) (by decide)
  exact ⟨h1 (by decide), h4.1, h4.2⟩
